import Mathlib

/-!
Shallow embedding of the core of `mender-rust` (files `src/parse.rs` and
`src/mender.rs`): the command data model, the deployment orchestrator
`deploy`, the two-tier identity resolver `get_id`, the artifact census
`count_artifacts` with `display_ordered`, the single-call operations
`get_info` and `get_token`, and the raw argument parser `Command::new`.

The HTTP transport is modelled by the sequence of responses the server
gives to the successive requests of one operation: a paginated endpoint is
a list of responses consumed in request order (the code requests page 1,
then 2, ... so the k-th response of the list answers page k); past the end
of the list the server is taken to answer with an empty page.  A response
is either a decoded success payload or a failure carrying the displayed
status code and the raw body text.  JSON decoding is modelled as already
done (success responses carry typed payloads); the pretty-printed JSON
passthrough of `get_info` is modelled as an opaque string.  Each operation
returns, besides its `Result`, the observable trace the claims talk about:
the list of page indices actually requested and, for `deploy`, the body of
the deployment submission if one was issued.  Errors are the exact strings
the Rust code formats (`MenderError` wraps a `String` as in the source);
counts use `Nat` for the source's `usize`/`i32` counters, which only ever
grow by one from zero.
-/

/-- The `Command` enum of `src/parse.rs`. -/
inductive Command where
  | login (email : String)
  | deploy (group : String) (artifact : String) (name : String)
  | getId (serial_number : String)
  | getInfo (id : String)
  | countArtifacts
  | help
deriving DecidableEq, Repr

/-- The `Config` struct of `src/parse.rs` (environment reading of
`Config::new` is outside the embedding; the fields are the inputs of the
core operations). -/
structure Config where
  command : Command
  token : Option String
  server_url : String
  cert_file : Option String
deriving DecidableEq, Repr

/-- One HTTP response as the core observes it: a decoded success payload,
or a non-2xx failure with its displayed status code and raw body text. -/
inductive HttpResponse (α : Type) where
  | success (body : α)
  | failure (status : String) (body : String)
deriving DecidableEq, Repr

/-- The `MenderError` struct of `src/mender.rs`: an error message string. -/
structure MenderError where
  err : String
deriving DecidableEq, Repr

instance {ε α : Type} [DecidableEq ε] [DecidableEq α] : DecidableEq (Except ε α)
  | Except.error e1, Except.error e2 =>
      if h : e1 = e2 then Decidable.isTrue (by rw [h])
      else Decidable.isFalse (by simp [h])
  | Except.error _, Except.ok _ => Decidable.isFalse (by intro h; cases h)
  | Except.ok _, Except.error _ => Decidable.isFalse (by intro h; cases h)
  | Except.ok a1, Except.ok a2 =>
      if h : a1 = a2 then Decidable.isTrue (by rw [h])
      else Decidable.isFalse (by simp [h])

/-- The serialized body of the deployment POST (`DeployData` in
`src/mender.rs`). -/
structure DeployData where
  artifact_name : String
  name : String
  devices : List String
deriving DecidableEq, Repr

/-- The `format!` message of a failed group-membership listing in `deploy`. -/
def listDevicesErr (group status body : String) : MenderError :=
  ⟨"deployment error, couldn\x27t list devices in group " ++ group ++
    ". Status code \x27" ++ status ++ "\x27 response \x27" ++ body ++ "\x27"⟩

/-- The `format!` message of a failed deployment POST in `deploy`. -/
def deployFailedErr (status body : String) : MenderError :=
  ⟨"deployment failed. Status code \x27" ++ status ++
    "\x27 response \x27" ++ body ++ "\x27"⟩

/-- The `format!` message shared by the failed searches of `get_id` and
`count_artifacts`. -/
def searchFailedErr (status body : String) : MenderError :=
  ⟨"searching device failed. Status code \x27" ++ status ++
    "\x27 response \x27" ++ body ++ "\x27"⟩

/-- Observable outcome of `deploy`: the returned result, the page indices
requested from the group-membership endpoint, and the submission body if
the deployment POST was issued. -/
structure DeployOutcome where
  result : Except MenderError Nat
  list_pages : List Nat
  submitted : Option DeployData
deriving DecidableEq, Repr

/-- The group-membership pagination loop of `deploy`
(`src/mender.rs:103-127`): request page `idx`; on a non-2xx status abort
with the formatted error; append the decoded ids; stop after an empty
page, otherwise continue with `idx + 1`. -/
def listGroupLoop (group : String) (idx : Nat) :
    List (HttpResponse (List String)) → Except MenderError (List String) × List Nat
  | [] => (Except.ok [], [idx])
  | r :: rest =>
    match r with
    | HttpResponse.failure status body =>
        (Except.error (listDevicesErr group status body), [idx])
    | HttpResponse.success res =>
        if res.length = 0 then
          (Except.ok res, [idx])
        else
          match listGroupLoop group (idx + 1) rest with
          | (Except.ok ds, idxs) => (Except.ok (res ++ ds), idx :: idxs)
          | (Except.error e, idxs) => (Except.error e, idx :: idxs)

/-- `deploy` of `src/mender.rs:85-156`: gate on `(Command::Deploy, Some
token)`, default the deployment name to the group name, paginate the
group-membership endpoint, then POST the deployment and return the
client-side device count on success. -/
def deploy (conf : Config) (list_resps : List (HttpResponse (List String)))
    (post_resp : HttpResponse Unit) : DeployOutcome :=
  match conf.command, conf.token with
  | Command.deploy group artifact name, some _token =>
    let name := if name.isEmpty then group else name
    match listGroupLoop group 1 list_resps with
    | (Except.error e, idxs) => ⟨Except.error e, idxs, none⟩
    | (Except.ok devices, idxs) =>
      let nb_devices := devices.length
      let deploy_data : DeployData := ⟨artifact, name, devices⟩
      match post_resp with
      | HttpResponse.success _ => ⟨Except.ok nb_devices, idxs, some deploy_data⟩
      | HttpResponse.failure status body =>
          ⟨Except.error (deployFailedErr status body), idxs, some deploy_data⟩
  | _, _ =>
      ⟨Except.error ⟨"Command must be Deploy and token must be provided for deploy"⟩,
        [], none⟩

/-- `MenderId` of `src/mender.rs`. -/
structure MenderId where
  id : String
deriving DecidableEq, Repr

/-- `MenderSn` of `src/mender.rs`: the decoded `identity_data` object. -/
structure MenderSn where
  SerialNumber : String
deriving DecidableEq, Repr

/-- `MenderIdentity` of `src/mender.rs`. -/
structure MenderIdentity where
  id : String
  identity_data : MenderSn
deriving DecidableEq, Repr

/-- Observable outcome of `get_id`: the result, how many requests were
made to the attribute-filtered inventory endpoint, and the page indices
requested from the identity-table (devauth) endpoint. -/
structure GetIdOutcome where
  result : Except MenderError String
  inventory_calls : Nat
  auth_pages : List Nat
deriving DecidableEq, Repr

/-- The identity-table scan loop of `get_id` (`src/mender.rs:205-245`):
request page `idx`; abort on non-2xx; return the first record of the page
whose `identity_data.SerialNumber` equals the requested value; on no match
stop if the page was empty (`ok none`, leading to `NotFound`), else
continue with `idx + 1`. -/
def getIdScanLoop (serial_number : String) (idx : Nat) :
    List (HttpResponse (List MenderIdentity)) →
      Except MenderError (Option String) × List Nat
  | [] => (Except.ok none, [idx])
  | r :: rest =>
    match r with
    | HttpResponse.failure status body =>
        (Except.error (searchFailedErr status body), [idx])
    | HttpResponse.success res =>
      let nb_results := res.length
      match res.find? (fun mi => mi.identity_data.SerialNumber == serial_number) with
      | some mi => (Except.ok (some mi.id), [idx])
      | none =>
        if nb_results = 0 then
          (Except.ok none, [idx])
        else
          match getIdScanLoop serial_number (idx + 1) rest with
          | (r2, idxs) => (r2, idx :: idxs)

/-- `get_id` of `src/mender.rs:177-256`: gate on `(Command::GetId, Some
token)`; first tier queries the inventory endpoint filtered by the
`SerialNumber` attribute and `pop`s the last element of the decoded list;
if the list is empty, fall back to the paginated identity-table scan,
failing with `SerialNumber not found` when the scan exhausts. -/
def get_id (conf : Config) (inv_resp : HttpResponse (List MenderId))
    (auth_resps : List (HttpResponse (List MenderIdentity))) : GetIdOutcome :=
  match conf.command, conf.token with
  | Command.getId serial_number, some _token =>
    match inv_resp with
    | HttpResponse.failure status body =>
        ⟨Except.error (searchFailedErr status body), 1, []⟩
    | HttpResponse.success res =>
      match res.getLast? with
      | some mender_id => ⟨Except.ok mender_id.id, 1, []⟩
      | none =>
        match getIdScanLoop serial_number 1 auth_resps with
        | (Except.error e, idxs) => ⟨Except.error e, 1, idxs⟩
        | (Except.ok (some found_id), idxs) => ⟨Except.ok found_id, 1, idxs⟩
        | (Except.ok none, idxs) =>
            ⟨Except.error ⟨"SerialNumber not found"⟩, 1, idxs⟩
  | _, _ =>
      ⟨Except.error ⟨"Command must be getid and token must be provided in get_id call"⟩,
        0, []⟩

/-- `MenderAttribute` of `src/mender.rs`. -/
structure MenderAttribute where
  name : String
  value : String
deriving DecidableEq, Repr

/-- `MenderDevice` of `src/mender.rs`: the `attributes` field is optional
in the wire format. -/
structure MenderDevice where
  id : String
  attributes : Option (List MenderAttribute)
deriving DecidableEq, Repr

/-- The attribute scan inside `MenderDevice::artifact_name`: return the
value of the first attribute named `artifact_name`, else the empty
string. -/
def artifactNameOfAttributes : List MenderAttribute → String
  | [] => ""
  | a :: rest =>
      if a.name == "artifact_name" then a.value else artifactNameOfAttributes rest

/-- `MenderDevice::artifact_name` of `src/mender.rs:299-310`. -/
def MenderDevice.artifact_name (d : MenderDevice) : String :=
  match d.attributes with
  | some attributes => artifactNameOfAttributes attributes
  | none => ""

/-- One `*artifacts_count.entry(artifact).or_insert(0) += 1` step on the
accumulating map, modelled as an association list in first-insertion
order (the source's `HashMap` iteration order is unspecified; the claims
do not depend on the order of tie-count entries). -/
def bumpCount (m : List (String × Nat)) (k : String) : List (String × Nat) :=
  match m with
  | [] => [(k, 1)]
  | (k0, v) :: rest =>
      if k0 == k then (k0, v + 1) :: rest else (k0, v) :: bumpCount rest k

/-- The inventory pagination loop of `count_artifacts`
(`src/mender.rs:318-354`): request page `idx`; abort on non-2xx; bump the
counter of each device's `artifact_name`; continue with `idx + 1` while
the page was non-empty. -/
def countLoop (idx : Nat) (acc : List (String × Nat)) :
    List (HttpResponse (List MenderDevice)) →
      Except MenderError (List (String × Nat)) × List Nat
  | [] => (Except.ok acc, [idx])
  | r :: rest =>
    match r with
    | HttpResponse.failure status body =>
        (Except.error (searchFailedErr status body), [idx])
    | HttpResponse.success res =>
      let nb_devices := res.length
      let artifacts := res.map MenderDevice.artifact_name
      let acc2 := artifacts.foldl bumpCount acc
      if nb_devices > 0 then
        match countLoop (idx + 1) acc2 rest with
        | (r2, idxs) => (r2, idx :: idxs)
      else
        (Except.ok acc2, [idx])

/-- Stable insertion of one `(name, count)` entry into a list sorted by
count descending: the entry goes after every entry with a count `≥` its
own. -/
def insertByCountDesc (x : String × Nat) : List (String × Nat) → List (String × Nat)
  | [] => [x]
  | y :: ys => if y.2 < x.2 then x :: y :: ys else y :: insertByCountDesc x ys

/-- The `vec.sort_by(|a, b| b.1.cmp(a.1))` of `display_ordered`: a stable
sort by count descending. -/
def sortByCountDesc : List (String × Nat) → List (String × Nat)
  | [] => []
  | x :: xs => insertByCountDesc x (sortByCountDesc xs)

/-- `display_ordered` of `src/mender.rs:364-372`: sort the `(name, count)`
pairs by count descending and print one `name: count` line each. -/
def display_ordered (m : List (String × Nat)) : String :=
  String.join ((sortByCountDesc m).map (fun kv => kv.1 ++ ": " ++ toString kv.2 ++ "\n"))

/-- Observable outcome of `count_artifacts`: the result and the page
indices requested from the inventory endpoint. -/
structure CountOutcome where
  result : Except MenderError String
  inv_pages : List Nat
deriving DecidableEq, Repr

/-- `count_artifacts` of `src/mender.rs:313-362`: gate on
`(Command::CountArtifacts, Some token)`, paginate the full inventory,
accumulate per-artifact counts and render them with `display_ordered`. -/
def count_artifacts (conf : Config) (inv_resps : List (HttpResponse (List MenderDevice))) :
    CountOutcome :=
  match conf.command, conf.token with
  | Command.countArtifacts, some _token =>
    match countLoop 1 [] inv_resps with
    | (Except.error e, idxs) => ⟨Except.error e, idxs⟩
    | (Except.ok artifacts_count, idxs) =>
        ⟨Except.ok (display_ordered artifacts_count), idxs⟩
  | _, _ =>
      ⟨Except.error
        ⟨"Command must be countartifacts and token must be provided in count_artifacts call"⟩,
        []⟩

/-- Observable outcome of the single-request operations `get_info` and
`get_token`: the result and the number of transport calls issued. -/
structure SingleCallOutcome where
  result : Except MenderError String
  calls : Nat
deriving DecidableEq, Repr

/-- `get_info` of `src/mender.rs:259-285`: gate on `(Command::GetInfo,
Some token)`, issue one GET and pass the body through (the JSON
pretty-printing is modelled as the opaque payload string). -/
def get_info (conf : Config) (resp : HttpResponse String) : SingleCallOutcome :=
  match conf.command, conf.token with
  | Command.getInfo _id, some _token =>
    match resp with
    | HttpResponse.success text => ⟨Except.ok text, 1⟩
    | HttpResponse.failure status body =>
        ⟨Except.error ⟨"get info failed. Status code \x27" ++ status ++
          "\x27 response \x27" ++ body ++ "\x27"⟩, 1⟩
  | _, _ =>
      ⟨Except.error ⟨"Command must be getinfo and token must be provided in get_info call"⟩,
        0⟩

/-- `get_token` of `src/mender.rs:50-72`: gate on `Command::Login`, issue
one POST with basic auth and return the raw token text on success. -/
def get_token (conf : Config) (_pass : String) (resp : HttpResponse String) :
    SingleCallOutcome :=
  match conf.command with
  | Command.login _email =>
    match resp with
    | HttpResponse.success text => ⟨Except.ok text, 1⟩
    | HttpResponse.failure status body =>
        ⟨Except.error ⟨"login error. Status code \x27" ++ status ++
          "\x27 response \x27" ++ body ++ "\x27"⟩, 1⟩
  | _ =>
      ⟨Except.error ⟨"Command must be Login for get_token"⟩, 0⟩

/-- `HELP_STR` of `src/parse.rs`. -/
def HELP_STR : String :=
  "This is mender-rust utility, a small command line tool\n" ++
  "to perform tasks on a Mender server using its APIs.\n\n" ++
  "Available commands are:\n" ++
  " * help -> display this help.\n" ++
  " * login email -> returns a token for the given user email, password\n" ++
  "   needs to be typed manually.\n" ++
  " * deploy group artifact [name] -> deploy the given artifact to the given group.\n" ++
  "   An optional name can be given, if there are none the group name is used.\n" ++
  " * getid serialnumber -> get the mender id of a device based on its attribute SerialNumber.\n" ++
  " * getinfo id -> return info of the device with the given id.\n" ++
  " * countartifacts -> return a count of the artifacts used by the devices.\n\n" ++
  "Used environment variables:\n" ++
  " * SERVER_URL -> url of the mender server, must be provided.\n" ++
  " * TOKEN -> authentication token, must be provided for deploy, getid, getinfo and countartifacts commands.\n" ++
  " * CERT_FILE -> optional verification certificate for the server secure connection."

/-- `Command::new` of `src/parse.rs:155-203`: the raw `std::env::args`
parser (`args[0]` is the binary name).  The deployment name is `args[4]`
exactly when five arguments are present, the empty string otherwise; the
empty-argument-vector case cannot occur in the program (`args` always
holds the binary name). -/
def Command.new : List String → Except String Command
  | [] => Except.error HELP_STR
  | [_] => Except.error HELP_STR
  | _ :: cmd :: rest =>
    match cmd, rest with
    | "help", _ => Except.ok Command.help
    | "countartifacts", _ => Except.ok Command.countArtifacts
    | "login", [] => Except.error "email must be provided in login command"
    | "login", email :: _ => Except.ok (Command.login email)
    | "deploy", group :: artifact :: more =>
        Except.ok (Command.deploy group artifact
          (match more with | [n] => n | _ => ""))
    | "deploy", _ => Except.error "group and artifact must be provided in deploy command"
    | "getid", [] => Except.error "serial number must be provided in getid command"
    | "getid", serial_number :: _ => Except.ok (Command.getId serial_number)
    | "getinfo", [] => Except.error "id must be provided in getinfo command"
    | "getinfo", id :: _ => Except.ok (Command.getInfo id)
    | _, _ => Except.error "unrecognized command, run help to see available commands"

/-! ## Helper lemmas about the pagination loops -/

theorem listGroupLoop_ok_run (group : String) (s : Nat) (pages : List (List String))
    (h : ∀ p ∈ pages, p ≠ []) :
    listGroupLoop group s (pages.map HttpResponse.success ++ [HttpResponse.success []]) =
      (Except.ok pages.flatten, List.range' s (pages.length + 1)) := by
  induction pages generalizing s with
  | nil => simp [listGroupLoop, List.range']
  | cons p ps ih =>
    have hp : p ≠ [] := h p (by simp)
    have hps : ∀ q ∈ ps, q ≠ [] := fun q hq => h q (by simp [hq])
    simp only [List.map_cons, List.cons_append, listGroupLoop, List.append_eq]
    rw [if_neg (by simpa [List.length_eq_zero] using hp)]
    rw [ih (s + 1) hps]
    simp [List.range'_succ]

theorem listGroupLoop_failure_run (group st b : String) (s : Nat)
    (pages : List (List String)) (rest : List (HttpResponse (List String)))
    (h : ∀ p ∈ pages, p ≠ []) :
    listGroupLoop group s
        (pages.map HttpResponse.success ++ HttpResponse.failure st b :: rest) =
      (Except.error (listDevicesErr group st b), List.range' s (pages.length + 1)) := by
  induction pages generalizing s with
  | nil => simp [listGroupLoop, List.range']
  | cons p ps ih =>
    have hp : p ≠ [] := h p (by simp)
    have hps : ∀ q ∈ ps, q ≠ [] := fun q hq => h q (by simp [hq])
    simp only [List.map_cons, List.cons_append, listGroupLoop, List.append_eq]
    rw [if_neg (by simpa [List.length_eq_zero] using hp)]
    rw [ih (s + 1) hps]
    simp [List.range'_succ]

theorem find?_sn_eq_none (sn : String) (p : List MenderIdentity)
    (h : ∀ x ∈ p, x.identity_data.SerialNumber ≠ sn) :
    p.find? (fun mi => mi.identity_data.SerialNumber == sn) = none := by
  rw [List.find?_eq_none]
  intro x hx
  simpa using h x hx

theorem find?_sn_first (sn : String) (pre post : List MenderIdentity) (mi : MenderIdentity)
    (hpre : ∀ x ∈ pre, x.identity_data.SerialNumber ≠ sn)
    (hmi : mi.identity_data.SerialNumber = sn) :
    (pre ++ mi :: post).find? (fun x => x.identity_data.SerialNumber == sn) = some mi := by
  induction pre with
  | nil => simp [List.find?_cons_of_pos, hmi]
  | cons a as ih =>
    rw [List.cons_append, List.find?_cons_of_neg]
    · exact ih (fun x hx => hpre x (by simp [hx]))
    · simpa using hpre a (by simp)

theorem getIdScanLoop_nomatch_run (sn : String) (s : Nat)
    (pages : List (List MenderIdentity))
    (h1 : ∀ p ∈ pages, p ≠ [])
    (h2 : ∀ p ∈ pages, ∀ x ∈ p, x.identity_data.SerialNumber ≠ sn) :
    getIdScanLoop sn s (pages.map HttpResponse.success ++ [HttpResponse.success []]) =
      (Except.ok none, List.range' s (pages.length + 1)) := by
  induction pages generalizing s with
  | nil => simp [getIdScanLoop, List.range']
  | cons p ps ih =>
    have hp : p ≠ [] := h1 p (by simp)
    have hps : ∀ q ∈ ps, q ≠ [] := fun q hq => h1 q (by simp [hq])
    have hnm : ∀ x ∈ p, x.identity_data.SerialNumber ≠ sn := h2 p (by simp)
    have hnms : ∀ q ∈ ps, ∀ x ∈ q, x.identity_data.SerialNumber ≠ sn :=
      fun q hq => h2 q (by simp [hq])
    simp only [List.map_cons, List.cons_append, getIdScanLoop, List.append_eq]
    rw [find?_sn_eq_none sn p hnm]
    rw [if_neg (by simpa [List.length_eq_zero] using hp)]
    rw [ih (s + 1) hps hnms]
    simp [List.range'_succ]

theorem getIdScanLoop_match_run (sn : String) (s : Nat)
    (pages : List (List MenderIdentity)) (pre post : List MenderIdentity)
    (mi : MenderIdentity) (rest : List (HttpResponse (List MenderIdentity)))
    (h1 : ∀ p ∈ pages, p ≠ [])
    (h2 : ∀ p ∈ pages, ∀ x ∈ p, x.identity_data.SerialNumber ≠ sn)
    (h3 : ∀ x ∈ pre, x.identity_data.SerialNumber ≠ sn)
    (h4 : mi.identity_data.SerialNumber = sn) :
    getIdScanLoop sn s (pages.map HttpResponse.success ++
        HttpResponse.success (pre ++ mi :: post) :: rest) =
      (Except.ok (some mi.id), List.range' s (pages.length + 1)) := by
  induction pages generalizing s with
  | nil =>
    simp only [List.map_nil, List.nil_append, getIdScanLoop]
    rw [find?_sn_first sn pre post mi h3 h4]
    simp [List.range']
  | cons p ps ih =>
    have hp : p ≠ [] := h1 p (by simp)
    have hps : ∀ q ∈ ps, q ≠ [] := fun q hq => h1 q (by simp [hq])
    have hnm : ∀ x ∈ p, x.identity_data.SerialNumber ≠ sn := h2 p (by simp)
    have hnms : ∀ q ∈ ps, ∀ x ∈ q, x.identity_data.SerialNumber ≠ sn :=
      fun q hq => h2 q (by simp [hq])
    simp only [List.map_cons, List.cons_append, getIdScanLoop, List.append_eq]
    rw [find?_sn_eq_none sn p hnm]
    rw [if_neg (by simpa [List.length_eq_zero] using hp)]
    rw [ih (s + 1) hps hnms]
    simp [List.range'_succ]

theorem getIdScanLoop_failure_run (sn st b : String) (s : Nat)
    (pages : List (List MenderIdentity)) (rest : List (HttpResponse (List MenderIdentity)))
    (h1 : ∀ p ∈ pages, p ≠ [])
    (h2 : ∀ p ∈ pages, ∀ x ∈ p, x.identity_data.SerialNumber ≠ sn) :
    getIdScanLoop sn s
        (pages.map HttpResponse.success ++ HttpResponse.failure st b :: rest) =
      (Except.error (searchFailedErr st b), List.range' s (pages.length + 1)) := by
  induction pages generalizing s with
  | nil => simp [getIdScanLoop, List.range']
  | cons p ps ih =>
    have hp : p ≠ [] := h1 p (by simp)
    have hps : ∀ q ∈ ps, q ≠ [] := fun q hq => h1 q (by simp [hq])
    have hnm : ∀ x ∈ p, x.identity_data.SerialNumber ≠ sn := h2 p (by simp)
    have hnms : ∀ q ∈ ps, ∀ x ∈ q, x.identity_data.SerialNumber ≠ sn :=
      fun q hq => h2 q (by simp [hq])
    simp only [List.map_cons, List.cons_append, getIdScanLoop, List.append_eq]
    rw [find?_sn_eq_none sn p hnm]
    rw [if_neg (by simpa [List.length_eq_zero] using hp)]
    rw [ih (s + 1) hps hnms]
    simp [List.range'_succ]

theorem countLoop_ok_run (s : Nat) (acc : List (String × Nat))
    (pages : List (List MenderDevice))
    (h : ∀ p ∈ pages, p ≠ []) :
    countLoop s acc (pages.map HttpResponse.success ++ [HttpResponse.success []]) =
      (Except.ok ((pages.flatten.map MenderDevice.artifact_name).foldl bumpCount acc),
        List.range' s (pages.length + 1)) := by
  induction pages generalizing s acc with
  | nil => simp [countLoop, List.range']
  | cons p ps ih =>
    have hp : p ≠ [] := h p (by simp)
    have hps : ∀ q ∈ ps, q ≠ [] := fun q hq => h q (by simp [hq])
    simp only [List.map_cons, List.cons_append, countLoop, List.append_eq]
    rw [if_pos (List.length_pos.mpr hp)]
    rw [ih (s + 1) _ hps]
    simp [List.range'_succ, List.flatten_cons, List.map_append, List.foldl_append]

theorem countLoop_failure_run (st b : String) (s : Nat) (acc : List (String × Nat))
    (pages : List (List MenderDevice)) (rest : List (HttpResponse (List MenderDevice)))
    (h : ∀ p ∈ pages, p ≠ []) :
    countLoop s acc
        (pages.map HttpResponse.success ++ HttpResponse.failure st b :: rest) =
      (Except.error (searchFailedErr st b), List.range' s (pages.length + 1)) := by
  induction pages generalizing s acc with
  | nil => simp [countLoop, List.range']
  | cons p ps ih =>
    have hp : p ≠ [] := h p (by simp)
    have hps : ∀ q ∈ ps, q ≠ [] := fun q hq => h q (by simp [hq])
    simp only [List.map_cons, List.cons_append, countLoop, List.append_eq]
    rw [if_pos (List.length_pos.mpr hp)]
    rw [ih (s + 1) _ hps]
    simp [List.range'_succ]

/-! ## Helper lemmas about the counting map and the descending sort -/

theorem lookup_bumpCount (m : List (String × Nat)) (k nm : String) :
    ((bumpCount m k).lookup nm).getD 0 =
      (m.lookup nm).getD 0 + (if k = nm then 1 else 0) := by
  induction m with
  | nil =>
    by_cases h : nm = k
    · subst h
      simp [bumpCount, List.lookup]
    · have hb : (nm == k) = false := beq_eq_false_iff_ne.mpr h
      have hkn : ¬k = nm := fun hc => h hc.symm
      simp [bumpCount, List.lookup, hb, hkn]
  | cons kv rest ih =>
    obtain ⟨k0, v⟩ := kv
    by_cases hk : k0 = k
    · subst hk
      by_cases hn : nm = k0
      · subst hn
        simp [bumpCount, List.lookup_cons]
      · have hb : (nm == k0) = false := beq_eq_false_iff_ne.mpr hn
        have hkn : ¬k0 = nm := fun hc => hn hc.symm
        simp [bumpCount, List.lookup_cons, hb, hkn]
    · have hb0 : (k0 == k) = false := beq_eq_false_iff_ne.mpr hk
      by_cases hn : nm = k0
      · subst hn
        have hkn : ¬k = nm := fun hc => hk hc.symm
        simp [bumpCount, List.lookup_cons, hb0, hkn]
      · have hb : (nm == k0) = false := beq_eq_false_iff_ne.mpr hn
        simp [bumpCount, List.lookup_cons, hb0, hb, ih]

theorem foldl_bumpCount_lookup (names : List String) (m : List (String × Nat)) (nm : String) :
    (((names.foldl bumpCount m).lookup nm).getD 0) =
      (m.lookup nm).getD 0 + names.count nm := by
  induction names generalizing m with
  | nil => simp
  | cons x xs ih =>
    simp only [List.foldl_cons]
    rw [ih, lookup_bumpCount, List.count_cons]
    by_cases h : x = nm
    · simp [h]
      omega
    · have hb : (x == nm) = false := beq_eq_false_iff_ne.mpr h
      simp [h, hb]

theorem sum_bumpCount (m : List (String × Nat)) (k : String) :
    ((bumpCount m k).map Prod.snd).sum = (m.map Prod.snd).sum + 1 := by
  induction m with
  | nil => simp [bumpCount]
  | cons kv rest ih =>
    obtain ⟨k0, v⟩ := kv
    by_cases h : k0 = k
    · have hb : (k0 == k) = true := beq_iff_eq.mpr h
      simp [bumpCount, hb]
      omega
    · have hb : (k0 == k) = false := beq_eq_false_iff_ne.mpr h
      simp [bumpCount, hb, ih]
      omega

theorem sum_foldl_bumpCount (names : List String) (m : List (String × Nat)) :
    ((names.foldl bumpCount m).map Prod.snd).sum = (m.map Prod.snd).sum + names.length := by
  induction names generalizing m with
  | nil => simp
  | cons x xs ih =>
    simp only [List.foldl_cons, List.length_cons]
    rw [ih, sum_bumpCount]
    omega

theorem mem_insertByCountDesc (x z : String × Nat) (l : List (String × Nat)) :
    z ∈ insertByCountDesc x l ↔ z = x ∨ z ∈ l := by
  induction l with
  | nil => simp [insertByCountDesc]
  | cons y ys ih =>
    simp only [insertByCountDesc]
    split
    · simp only [List.mem_cons]
      try tauto
    · simp only [List.mem_cons, ih]
      try tauto

theorem pairwise_insertByCountDesc (x : String × Nat) (l : List (String × Nat))
    (h : l.Pairwise (fun a b => b.2 ≤ a.2)) :
    (insertByCountDesc x l).Pairwise (fun a b => b.2 ≤ a.2) := by
  induction l with
  | nil => simp [insertByCountDesc]
  | cons y ys ih =>
    rw [List.pairwise_cons] at h
    obtain ⟨hy, hys⟩ := h
    simp only [insertByCountDesc]
    split
    · rename_i hlt
      refine List.Pairwise.cons ?_ (List.Pairwise.cons hy hys)
      intro z hz
      rcases List.mem_cons.mp hz with rfl | hz
      · exact Nat.le_of_lt hlt
      · exact Nat.le_trans (hy z hz) (Nat.le_of_lt hlt)
    · rename_i hge
      refine List.Pairwise.cons ?_ (ih hys)
      intro z hz
      rcases (mem_insertByCountDesc x z ys).mp hz with rfl | hz
      · exact Nat.le_of_not_lt hge
      · exact hy z hz

theorem pairwise_sortByCountDesc (l : List (String × Nat)) :
    (sortByCountDesc l).Pairwise (fun a b => b.2 ≤ a.2) := by
  induction l with
  | nil => simp [sortByCountDesc]
  | cons x xs ih => exact pairwise_insertByCountDesc x _ ih

theorem perm_insertByCountDesc (x : String × Nat) (l : List (String × Nat)) :
    List.Perm (insertByCountDesc x l) (x :: l) := by
  induction l with
  | nil => exact List.Perm.refl _
  | cons y ys ih =>
    simp only [insertByCountDesc]
    split
    · exact List.Perm.refl _
    · exact List.Perm.trans (List.Perm.cons y ih) (List.Perm.swap x y ys)

theorem perm_sortByCountDesc (l : List (String × Nat)) :
    List.Perm (sortByCountDesc l) l := by
  induction l with
  | nil => exact List.Perm.refl _
  | cons x xs ih =>
    exact List.Perm.trans (perm_insertByCountDesc x _) (List.Perm.cons x ih)

/-! ## Claim theorems -/

/-- Claim C1: for each of the three paginated listing operations (the
group-membership listing of `deploy`, the identity-table scan of `get_id`,
the inventory walk of `count_artifacts`), given non-empty pages `P1..Pn`
followed by an empty page, the aggregate output is the concatenation of
`P1..Pn` in order, exactly `n + 1` page requests are issued with page
indices `1..n+1` each incremented by one, and iteration terminates only on
the explicitly empty page (the pages are only required non-empty, not
full, so a short page does not stop the walk). -/
theorem pagination_driver_concat_and_requests
    (group sn : String)
    (gpages : List (List String))
    (ipages : List (List MenderIdentity))
    (dpages : List (List MenderDevice))
    (hg : ∀ p ∈ gpages, p ≠ [])
    (hi : ∀ p ∈ ipages, p ≠ [])
    (hinm : ∀ p ∈ ipages, ∀ x ∈ p, x.identity_data.SerialNumber ≠ sn)
    (hd : ∀ p ∈ dpages, p ≠ []) :
    listGroupLoop group 1 (gpages.map HttpResponse.success ++ [HttpResponse.success []]) =
        (Except.ok gpages.flatten, List.range' 1 (gpages.length + 1)) ∧
      getIdScanLoop sn 1 (ipages.map HttpResponse.success ++ [HttpResponse.success []]) =
        (Except.ok none, List.range' 1 (ipages.length + 1)) ∧
      countLoop 1 [] (dpages.map HttpResponse.success ++ [HttpResponse.success []]) =
        (Except.ok ((dpages.flatten.map MenderDevice.artifact_name).foldl bumpCount []),
          List.range' 1 (dpages.length + 1)) :=
  ⟨listGroupLoop_ok_run group 1 gpages hg,
   getIdScanLoop_nomatch_run sn 1 ipages hi hinm,
   countLoop_ok_run 1 [] dpages hd⟩

/-- Witness for C1 at concrete pages: two group pages, one identity page
without a match, one device page. -/
theorem pagination_driver_concat_and_requests_witness :
    listGroupLoop "g" 1
        [HttpResponse.success ["d1", "d2"], HttpResponse.success ["d3"],
          HttpResponse.success []] =
      (Except.ok ["d1", "d2", "d3"], [1, 2, 3]) ∧
    getIdScanLoop "SN9" 1
        [HttpResponse.success [⟨"i1", ⟨"SN1"⟩⟩], HttpResponse.success []] =
      (Except.ok none, [1, 2]) ∧
    countLoop 1 []
        [HttpResponse.success [⟨"dev1", none⟩], HttpResponse.success []] =
      (Except.ok [("", 1)], [1, 2]) :=
  pagination_driver_concat_and_requests "g" "SN9" [["d1", "d2"], ["d3"]]
    [[⟨"i1", ⟨"SN1"⟩⟩]] [[⟨"dev1", none⟩]]
    (by decide) (by decide) (by decide) (by decide)

/-- Claim C3: when the first-tier attribute-filtered inventory query of
`get_id` returns a non-empty list, the resolver returns the id of the
*last* element of that list (`res.pop()`) and makes zero calls to the
identity-table endpoint. -/
theorem get_id_first_tier_last_element
    (sn t u : String) (c : Option String) (ids : List MenderId) (d : MenderId)
    (auth_resps : List (HttpResponse (List MenderIdentity)))
    (h : ids.getLast? = some d) :
    get_id ⟨Command.getId sn, some t, u, c⟩ (HttpResponse.success ids) auth_resps =
      ⟨Except.ok d.id, 1, []⟩ := by
  simp [get_id, h]

/-- Witness for C3: a two-element first-tier response `[d1, d2]` resolves
to `d2.id` with no identity-table page requested. -/
theorem get_id_first_tier_last_element_witness :
    get_id ⟨Command.getId "SN1", some "tok", "u", none⟩
        (HttpResponse.success [⟨"id1"⟩, ⟨"id2"⟩]) [] =
      ⟨Except.ok "id2", 1, []⟩ :=
  get_id_first_tier_last_element "SN1" "tok" "u" none [⟨"id1"⟩, ⟨"id2"⟩] ⟨"id2"⟩ []
    (by decide)

/-- Claim C4: when the first tier returns an empty list, `get_id` scans
the identity table page by page and returns the id of the first record in
page order whose `identity_data.SerialNumber` equals the requested value
under exact string comparison, without requesting any further page: with
`j - 1` non-empty non-matching pages before the matching page `j`, exactly
the pages `1..j` are fetched, whatever responses would follow. -/
theorem get_id_fallback_first_match_in_page
    (sn t u : String) (c : Option String)
    (early_pages : List (List MenderIdentity)) (pre post : List MenderIdentity)
    (mi : MenderIdentity) (rest : List (HttpResponse (List MenderIdentity)))
    (h1 : ∀ p ∈ early_pages, p ≠ [])
    (h2 : ∀ p ∈ early_pages, ∀ x ∈ p, x.identity_data.SerialNumber ≠ sn)
    (h3 : ∀ x ∈ pre, x.identity_data.SerialNumber ≠ sn)
    (h4 : mi.identity_data.SerialNumber = sn) :
    get_id ⟨Command.getId sn, some t, u, c⟩ (HttpResponse.success [])
        (early_pages.map HttpResponse.success ++
          HttpResponse.success (pre ++ mi :: post) :: rest) =
      ⟨Except.ok mi.id, 1, List.range' 1 (early_pages.length + 1)⟩ := by
  simp [get_id, getIdScanLoop_match_run sn 1 early_pages pre post mi rest h1 h2 h3 h4]

/-- Witness for C4: the first matching record sits on page 2 (behind a
non-matching record), a third page exists, and the resolver returns that
record's id after fetching exactly the two pages `[1, 2]`. -/
theorem get_id_fallback_first_match_in_page_witness :
    get_id ⟨Command.getId "SN0", some "tok", "u", none⟩ (HttpResponse.success [])
        [HttpResponse.success [⟨"i1", ⟨"SN1"⟩⟩],
          HttpResponse.success [⟨"i2", ⟨"SN2"⟩⟩, ⟨"i3", ⟨"SN0"⟩⟩, ⟨"i4", ⟨"SN0"⟩⟩],
          HttpResponse.success [⟨"i9", ⟨"SN0"⟩⟩]] =
      ⟨Except.ok "i3", 1, [1, 2]⟩ :=
  get_id_fallback_first_match_in_page "SN0" "tok" "u" none
    [[⟨"i1", ⟨"SN1"⟩⟩]] [⟨"i2", ⟨"SN2"⟩⟩] [⟨"i4", ⟨"SN0"⟩⟩] ⟨"i3", ⟨"SN0"⟩⟩
    [HttpResponse.success [⟨"i9", ⟨"SN0"⟩⟩]]
    (by decide) (by decide) (by decide) (by decide)

/-- Claim C5: when no record of any identity-table page matches, `get_id`
fails with the `SerialNumber not found` outcome (distinct from a fetch
error), and only after requesting the explicitly empty page `n + 1`
behind the `n` non-empty non-matching pages — never earlier. -/
theorem get_id_not_found_after_empty_page
    (sn t u : String) (c : Option String)
    (pages : List (List MenderIdentity))
    (h1 : ∀ p ∈ pages, p ≠ [])
    (h2 : ∀ p ∈ pages, ∀ x ∈ p, x.identity_data.SerialNumber ≠ sn) :
    get_id ⟨Command.getId sn, some t, u, c⟩ (HttpResponse.success [])
        (pages.map HttpResponse.success ++ [HttpResponse.success []]) =
      ⟨Except.error ⟨"SerialNumber not found"⟩, 1, List.range' 1 (pages.length + 1)⟩ := by
  simp [get_id, getIdScanLoop_nomatch_run sn 1 pages h1 h2]

/-- Witness for C5: two non-matching pages then the empty page; `NotFound`
is reported after the three page requests `[1, 2, 3]`. -/
theorem get_id_not_found_after_empty_page_witness :
    get_id ⟨Command.getId "SN0", some "tok", "u", none⟩ (HttpResponse.success [])
        [HttpResponse.success [⟨"i1", ⟨"SN1"⟩⟩],
          HttpResponse.success [⟨"i2", ⟨"SN2"⟩⟩],
          HttpResponse.success []] =
      ⟨Except.error ⟨"SerialNumber not found"⟩, 1, [1, 2, 3]⟩ :=
  get_id_not_found_after_empty_page "SN0" "tok" "u" none
    [[⟨"i1", ⟨"SN1"⟩⟩], [⟨"i2", ⟨"SN2"⟩⟩]] (by decide) (by decide)

/-- Claim C6: a group-target deployment whose membership pages are
`["d1","d2"]`, `["d3"]` and the empty page submits exactly the ids
`d1, d2, d3` in that order in the deployment body and returns
`devices_affected = 3`, counted client-side from the accumulated list. -/
theorem deploy_group_pages_submits_in_order
    (g a nm t u : String) (c : Option String) :
    deploy ⟨Command.deploy g a nm, some t, u, c⟩
        [HttpResponse.success ["d1", "d2"], HttpResponse.success ["d3"],
          HttpResponse.success []]
        (HttpResponse.success ()) =
      ⟨Except.ok 3, [1, 2, 3],
        some ⟨a, if nm.isEmpty then g else nm, ["d1", "d2", "d3"]⟩⟩ := by
  rfl

/-- Claim C2 evaluation at the failing input: the released binary has no
device-target code path at all.  Running
`mender-rust deploy -d dev123 artifact1` makes `Command::new` parse the
literal flag `-d` as the *group* name and the device id `dev123` as the
*artifact* name; `deploy` then issues a group-membership listing request
(page 1) for the group `-d` and submits a deployment whose device list is
whatever that listing returned — here `[]`, reporting 0 devices — instead
of skipping the listing and deploying to `[dev123]`. -/
theorem deploy_device_target_missing_eval :
    Command.new ["mender-rust", "deploy", "-d", "dev123", "artifact1"] =
      Except.ok (Command.deploy "-d" "dev123" "artifact1") ∧
    deploy ⟨Command.deploy "-d" "dev123" "artifact1", some "tok", "u", none⟩
        [HttpResponse.success []] (HttpResponse.success ()) =
      ⟨Except.ok 0, [1], some ⟨"dev123", "artifact1", []⟩⟩ :=
  ⟨rfl, rfl⟩

/-- Claim C7: for every inventory device list under any split into
non-empty pages followed by the empty page, the census result maps each
artifact name to the number of devices whose extracted `artifact_name` is
that name (devices with no such attribute, or no attribute list at all,
falling into the empty-string bucket via `MenderDevice.artifact_name`),
and the displayed report is ordered by count descending. -/
theorem count_artifacts_census
    (t u : String) (c : Option String) (nm : String)
    (pages : List (List MenderDevice)) (ds : List MenderDevice)
    (h1 : ∀ p ∈ pages, p ≠ [])
    (h2 : pages.flatten = ds) :
    count_artifacts ⟨Command.countArtifacts, some t, u, c⟩
        (pages.map HttpResponse.success ++ [HttpResponse.success []]) =
      ⟨Except.ok (display_ordered ((ds.map MenderDevice.artifact_name).foldl bumpCount [])),
        List.range' 1 (pages.length + 1)⟩ ∧
    (((ds.map MenderDevice.artifact_name).foldl bumpCount []).lookup nm).getD 0 =
      (ds.map MenderDevice.artifact_name).count nm ∧
    (sortByCountDesc ((ds.map MenderDevice.artifact_name).foldl bumpCount [])).Pairwise
      (fun a b => b.2 ≤ a.2) ∧
    List.Perm (sortByCountDesc ((ds.map MenderDevice.artifact_name).foldl bumpCount []))
      ((ds.map MenderDevice.artifact_name).foldl bumpCount []) := by
  subst h2
  refine ⟨?_, ?_, pairwise_sortByCountDesc _, perm_sortByCountDesc _⟩
  · simp [count_artifacts, countLoop_ok_run 1 [] pages h1]
  · simpa using foldl_bumpCount_lookup (pages.flatten.map MenderDevice.artifact_name) [] nm

/-- Witness for C7: devices `[{artifact_name: a}, {no attributes},
{artifact_name: a}]` split as two pages; the report maps `a` to 2 and the
empty string to 1, with `a` ranked first in the output. -/
theorem count_artifacts_census_witness :
    count_artifacts ⟨Command.countArtifacts, some "tok", "u", none⟩
        [HttpResponse.success [⟨"x", some [⟨"artifact_name", "a"⟩]⟩, ⟨"y", none⟩],
          HttpResponse.success [⟨"z", some [⟨"artifact_name", "a"⟩]⟩],
          HttpResponse.success []] =
      ⟨Except.ok "a: 2\n: 1\n", [1, 2, 3]⟩ ∧
    (([("a", 2), ("", 1)] : List (String × Nat)).lookup "a").getD 0 = 2 ∧
    (([("a", 2), ("", 1)] : List (String × Nat))).Pairwise (fun a b => b.2 ≤ a.2) ∧
    List.Perm ([("a", 2), ("", 1)] : List (String × Nat)) [("a", 2), ("", 1)] :=
  count_artifacts_census "tok" "u" none "a"
    [[⟨"x", some [⟨"artifact_name", "a"⟩]⟩, ⟨"y", none⟩],
      [⟨"z", some [⟨"artifact_name", "a"⟩]⟩]]
    [⟨"x", some [⟨"artifact_name", "a"⟩]⟩, ⟨"y", none⟩,
      ⟨"z", some [⟨"artifact_name", "a"⟩]⟩]
    (by decide) rfl

/-- Claim C8: a non-2xx response at any stage of a multi-call operation
aborts the whole operation with the formatted error carrying the original
status code and raw body; in particular a failed group-membership listing
in `deploy` means the deployment POST is never issued (`submitted = none`),
whatever responses would follow. -/
theorem fetch_failure_aborts_operation
    (g a nm sn t u st b : String) (c : Option String)
    (gpages : List (List String)) (grest : List (HttpResponse (List String)))
    (post : HttpResponse Unit)
    (ipages : List (List MenderIdentity)) (irest : List (HttpResponse (List MenderIdentity)))
    (dpages : List (List MenderDevice)) (drest : List (HttpResponse (List MenderDevice)))
    (hg : ∀ p ∈ gpages, p ≠ [])
    (hi : ∀ p ∈ ipages, p ≠ [])
    (hinm : ∀ p ∈ ipages, ∀ x ∈ p, x.identity_data.SerialNumber ≠ sn)
    (hd : ∀ p ∈ dpages, p ≠ []) :
    deploy ⟨Command.deploy g a nm, some t, u, c⟩
        (gpages.map HttpResponse.success ++ HttpResponse.failure st b :: grest) post =
      ⟨Except.error (listDevicesErr g st b), List.range' 1 (gpages.length + 1), none⟩ ∧
    deploy ⟨Command.deploy g a nm, some t, u, c⟩
        (gpages.map HttpResponse.success ++ [HttpResponse.success []])
        (HttpResponse.failure st b) =
      ⟨Except.error (deployFailedErr st b), List.range' 1 (gpages.length + 1),
        some ⟨a, if nm.isEmpty then g else nm, gpages.flatten⟩⟩ ∧
    get_id ⟨Command.getId sn, some t, u, c⟩ (HttpResponse.failure st b) irest =
      ⟨Except.error (searchFailedErr st b), 1, []⟩ ∧
    get_id ⟨Command.getId sn, some t, u, c⟩ (HttpResponse.success [])
        (ipages.map HttpResponse.success ++ HttpResponse.failure st b :: irest) =
      ⟨Except.error (searchFailedErr st b), 1, List.range' 1 (ipages.length + 1)⟩ ∧
    count_artifacts ⟨Command.countArtifacts, some t, u, c⟩
        (dpages.map HttpResponse.success ++ HttpResponse.failure st b :: drest) =
      ⟨Except.error (searchFailedErr st b), List.range' 1 (dpages.length + 1)⟩ := by
  refine ⟨?_, ?_, rfl, ?_, ?_⟩
  · simp [deploy, listGroupLoop_failure_run g st b 1 gpages grest hg]
  · simp [deploy, listGroupLoop_ok_run g 1 gpages hg]
  · simp [get_id, getIdScanLoop_failure_run sn st b 1 ipages irest hi hinm]
  · simp [count_artifacts, countLoop_failure_run st b 1 [] dpages drest hd]

/-- Witness for C8: one good page then a 500 on each operation. -/
theorem fetch_failure_aborts_operation_witness :
    deploy ⟨Command.deploy "grp" "art" "", some "tok", "u", none⟩
        [HttpResponse.success ["d1"], HttpResponse.failure "500 Internal Server Error" "boom"]
        (HttpResponse.success ()) =
      ⟨Except.error (listDevicesErr "grp" "500 Internal Server Error" "boom"), [1, 2], none⟩ ∧
    deploy ⟨Command.deploy "grp" "art" "", some "tok", "u", none⟩
        [HttpResponse.success ["d1"], HttpResponse.success []]
        (HttpResponse.failure "500 Internal Server Error" "boom") =
      ⟨Except.error (deployFailedErr "500 Internal Server Error" "boom"), [1, 2],
        some ⟨"art", "grp", ["d1"]⟩⟩ ∧
    get_id ⟨Command.getId "SN0", some "tok", "u", none⟩
        (HttpResponse.failure "500 Internal Server Error" "boom") [] =
      ⟨Except.error (searchFailedErr "500 Internal Server Error" "boom"), 1, []⟩ ∧
    get_id ⟨Command.getId "SN0", some "tok", "u", none⟩ (HttpResponse.success [])
        [HttpResponse.success [⟨"i1", ⟨"SN1"⟩⟩],
          HttpResponse.failure "500 Internal Server Error" "boom"] =
      ⟨Except.error (searchFailedErr "500 Internal Server Error" "boom"), 1, [1, 2]⟩ ∧
    count_artifacts ⟨Command.countArtifacts, some "tok", "u", none⟩
        [HttpResponse.success [⟨"x", none⟩],
          HttpResponse.failure "500 Internal Server Error" "boom"] =
      ⟨Except.error (searchFailedErr "500 Internal Server Error" "boom"), [1, 2]⟩ :=
  fetch_failure_aborts_operation "grp" "art" "" "SN0" "tok" "u"
    "500 Internal Server Error" "boom" none
    [["d1"]] [] (HttpResponse.success ())
    [[⟨"i1", ⟨"SN1"⟩⟩]] [] [[⟨"x", none⟩]] []
    (by decide) (by decide) (by decide) (by decide)

theorem artifactNameOfAttributes_first (pre post : List MenderAttribute)
    (attr : MenderAttribute)
    (h2 : ∀ x ∈ pre, x.name ≠ "artifact_name")
    (h3 : attr.name = "artifact_name") :
    artifactNameOfAttributes (pre ++ attr :: post) = attr.value := by
  induction pre with
  | nil => simp [artifactNameOfAttributes, h3]
  | cons x xs ih =>
    have hx : x.name ≠ "artifact_name" := h2 x (by simp)
    have hb : (x.name == "artifact_name") = false := beq_eq_false_iff_ne.mpr hx
    simp only [List.cons_append, artifactNameOfAttributes, hb, Bool.false_eq_true,
      if_false]
    exact ih (fun y hy => h2 y (by simp [hy]))

/-- Claim C9: an operation called with a configuration whose command
variant does not match it, or (for the token-requiring operations) with no
token, returns the gating error at once and issues no transport call of
any kind: no page request, no submission, no single GET or POST. -/
theorem gating_rejects_without_network
    (conf : Config)
    (lr : List (HttpResponse (List String))) (pr : HttpResponse Unit)
    (ir : HttpResponse (List MenderId)) (ar : List (HttpResponse (List MenderIdentity)))
    (dr : List (HttpResponse (List MenderDevice)))
    (gr tr : HttpResponse String) (pass : String) :
    ((∀ g a nm, conf.command ≠ Command.deploy g a nm) ∨ conf.token = none →
      deploy conf lr pr =
        ⟨Except.error ⟨"Command must be Deploy and token must be provided for deploy"⟩,
          [], none⟩) ∧
    ((∀ s, conf.command ≠ Command.getId s) ∨ conf.token = none →
      get_id conf ir ar =
        ⟨Except.error ⟨"Command must be getid and token must be provided in get_id call"⟩,
          0, []⟩) ∧
    (conf.command ≠ Command.countArtifacts ∨ conf.token = none →
      count_artifacts conf dr =
        ⟨Except.error
          ⟨"Command must be countartifacts and token must be provided in count_artifacts call"⟩,
          []⟩) ∧
    ((∀ i, conf.command ≠ Command.getInfo i) ∨ conf.token = none →
      get_info conf gr =
        ⟨Except.error ⟨"Command must be getinfo and token must be provided in get_info call"⟩,
          0⟩) ∧
    ((∀ e, conf.command ≠ Command.login e) →
      get_token conf pass tr = ⟨Except.error ⟨"Command must be Login for get_token"⟩, 0⟩) := by
  obtain ⟨cmd, tok, su, cf⟩ := conf
  refine ⟨?_, ?_, ?_, ?_, ?_⟩
  · rintro (h | h)
    · cases tok <;> cases cmd <;> try rfl
      exact absurd rfl (h _ _ _)
    · cases h
      cases cmd <;> rfl
  · rintro (h | h)
    · cases tok <;> cases cmd <;> try rfl
      exact absurd rfl (h _)
    · cases h
      cases cmd <;> rfl
  · rintro (h | h)
    · cases tok <;> cases cmd <;> try rfl
      exact absurd rfl h
    · cases h
      cases cmd <;> rfl
  · rintro (h | h)
    · cases tok <;> cases cmd <;> try rfl
      exact absurd rfl (h _)
    · cases h
      cases cmd <;> rfl
  · intro h
    cases cmd <;> try rfl
    exact absurd rfl (h _)

/-- Witness for C9: a `Help` command with no token is rejected by all five
operations without any transport call. -/
theorem gating_rejects_without_network_witness :
    deploy ⟨Command.help, none, "u", none⟩ [] (HttpResponse.success ()) =
      ⟨Except.error ⟨"Command must be Deploy and token must be provided for deploy"⟩,
        [], none⟩ ∧
    get_id ⟨Command.help, none, "u", none⟩ (HttpResponse.success []) [] =
      ⟨Except.error ⟨"Command must be getid and token must be provided in get_id call"⟩,
        0, []⟩ ∧
    count_artifacts ⟨Command.help, none, "u", none⟩ [] =
      ⟨Except.error
        ⟨"Command must be countartifacts and token must be provided in count_artifacts call"⟩,
        []⟩ ∧
    get_info ⟨Command.help, none, "u", none⟩ (HttpResponse.success "{}") =
      ⟨Except.error ⟨"Command must be getinfo and token must be provided in get_info call"⟩,
        0⟩ ∧
    get_token ⟨Command.help, none, "u", none⟩ "pw" (HttpResponse.success "tok") =
      ⟨Except.error ⟨"Command must be Login for get_token"⟩, 0⟩ := by
  have h := gating_rejects_without_network ⟨Command.help, none, "u", none⟩
    [] (HttpResponse.success ()) (HttpResponse.success []) [] []
    (HttpResponse.success "{}") (HttpResponse.success "tok") "pw"
  exact ⟨h.1 (Or.inr rfl), h.2.1 (Or.inr rfl), h.2.2.1 (Or.inr rfl),
    h.2.2.2.1 (Or.inr rfl), h.2.2.2.2 (fun e hc => Command.noConfusion hc)⟩

/-- Claim C10: a device whose attribute list holds several attributes
named `artifact_name` is counted under the value of the first one in wire
order, later ones ignored; and every device contributes exactly one
increment to exactly one bucket, so over any split into non-empty pages
the census counters of `countLoop` sum to the total number of devices. -/
theorem artifact_name_first_attribute_and_total_count
    (d : MenderDevice) (pre post : List MenderAttribute) (attr : MenderAttribute)
    (pages : List (List MenderDevice))
    (h1 : d.attributes = some (pre ++ attr :: post))
    (h2 : ∀ x ∈ pre, x.name ≠ "artifact_name")
    (h3 : attr.name = "artifact_name")
    (h4 : ∀ p ∈ pages, p ≠ []) :
    d.artifact_name = attr.value ∧
    (countLoop 1 [] (pages.map HttpResponse.success ++ [HttpResponse.success []])).1 =
      Except.ok ((pages.flatten.map MenderDevice.artifact_name).foldl bumpCount []) ∧
    ((((pages.flatten.map MenderDevice.artifact_name).foldl bumpCount []).map
        Prod.snd).sum) = pages.flatten.length := by
  refine ⟨?_, ?_, ?_⟩
  · rw [MenderDevice.artifact_name, h1]
    exact artifactNameOfAttributes_first pre post attr h2 h3
  · rw [countLoop_ok_run 1 [] pages h4]
  · rw [sum_foldl_bumpCount]
    simp only [List.map_nil, List.sum_nil, Nat.zero_add, List.length_map]

/-- Witness for C10: a device carrying two `artifact_name` attributes is
counted under the first value `v1`; one page of one device sums to 1. -/
theorem artifact_name_first_attribute_and_total_count_witness :
    MenderDevice.artifact_name
        ⟨"x", some [⟨"other", "o"⟩, ⟨"artifact_name", "v1"⟩, ⟨"artifact_name", "v2"⟩]⟩ =
      "v1" ∧
    (countLoop 1 []
        [HttpResponse.success
          [⟨"x", some [⟨"other", "o"⟩, ⟨"artifact_name", "v1"⟩, ⟨"artifact_name", "v2"⟩]⟩],
          HttpResponse.success []]).1 = Except.ok [("v1", 1)] ∧
    (([("v1", 1)] : List (String × Nat)).map Prod.snd).sum = 1 :=
  artifact_name_first_attribute_and_total_count
    ⟨"x", some [⟨"other", "o"⟩, ⟨"artifact_name", "v1"⟩, ⟨"artifact_name", "v2"⟩]⟩
    [⟨"other", "o"⟩] [⟨"artifact_name", "v2"⟩] ⟨"artifact_name", "v1"⟩
    [[⟨"x", some [⟨"other", "o"⟩, ⟨"artifact_name", "v1"⟩, ⟨"artifact_name", "v2"⟩]⟩]]
    rfl (by decide) rfl (by decide)
